import Mathlib

/-!
Shallow embedding of the road-surface telemetry pipeline:
the edge classifier (`process_agent_data`), the hub's buffered
forwarder (`StoreApiAdapter.save_data` / `send_data`), and the store
service (`create_processed_agent_data`, the CRUD endpoints, and the
WebSocket subscription registry).

Floating-point sensor values are modelled as rationals (every float is a
rational, and all the code does with them is compare and copy them);
timestamps are modelled as opaque integers (the code only copies them).
-/

/-! ## Data model (edge/app/entities, store main.py pydantic models) -/

structure AccelerometerData where
  x : ℚ
  y : ℚ
  z : ℚ
deriving DecidableEq, Repr

structure GpsData where
  latitude : ℚ
  longitude : ℚ
deriving DecidableEq, Repr

structure AgentData where
  user_id : Int
  accelerometer : AccelerometerData
  gps : GpsData
  timestamp : Int
deriving DecidableEq, Repr

structure ProcessedAgentData where
  road_state : String
  agent_data : AgentData
deriving DecidableEq, Repr

/-! ## Classifier (src/edge/app/usecases/data_processing.py) -/

/-- One entry of the `pit_intervals` dict: a `start`/`end` bound pair.
`end` is a Lean keyword, so the field is written `«end»`. -/
structure PitInterval where
  start : ℚ
  «end» : ℚ
deriving DecidableEq, Repr

/-- The `pit_intervals` dict of `data_processing.py`, keyed by its three
string keys. -/
def pit_intervals (k : String) : PitInterval :=
  if k = "normal" then { start := 14000, «end» := 18000 }
  else if k = "small pits less" then { start := 12000, «end» := 14000 }
  else { start := 18000, «end» := 20000 }

/-- `process_agent_data` of `data_processing.py`: classify the road
surface from the accelerometer z value and wrap the input unchanged. -/
def process_agent_data (agent_data : AgentData) : ProcessedAgentData :=
  let z_acceleration := agent_data.accelerometer.z
  let road_state :=
    if (pit_intervals "normal").start < z_acceleration ∧
        z_acceleration ≤ (pit_intervals "normal").«end» then
      "normal"
    else if ((pit_intervals "small pits less").start < z_acceleration ∧
          z_acceleration < (pit_intervals "small pits less").«end») ∨
        ((pit_intervals "small pits greater").start < z_acceleration ∧
          z_acceleration < (pit_intervals "small pits greater").«end») then
      "small pits"
    else
      "large pits"
  { road_state := road_state, agent_data := agent_data }

/-- A concrete agent record with a given user id and z acceleration,
used for evaluating the embedding at concrete inputs. -/
def sampleAgent (u : Int) (z : ℚ) : AgentData :=
  { user_id := u
    accelerometer := { x := 0, y := 0, z := z }
    gps := { latitude := 50, longitude := 30 }
    timestamp := 0 }

lemma pit_intervals_normal : pit_intervals "normal" = { start := 14000, «end» := 18000 } := rfl

lemma pit_intervals_less : pit_intervals "small pits less" = { start := 12000, «end» := 14000 } := rfl

lemma pit_intervals_greater : pit_intervals "small pits greater" = { start := 18000, «end» := 20000 } := rfl

/-- C3: the classifier returns `normal` exactly when 14000 < z ≤ 18000,
`small pits` exactly when 12000 < z < 14000 or 18000 < z < 20000, and
`large pits` otherwise; at z = 14000, 12000 and 20000 it yields
`large pits`, and at z = 18000 it yields `normal`. -/
theorem C3_classifier_intervals (a : AgentData) :
    ((process_agent_data a).road_state = "normal" ↔
      14000 < a.accelerometer.z ∧ a.accelerometer.z ≤ 18000) ∧
    ((process_agent_data a).road_state = "small pits" ↔
      ((12000 < a.accelerometer.z ∧ a.accelerometer.z < 14000) ∨
        (18000 < a.accelerometer.z ∧ a.accelerometer.z < 20000))) ∧
    ((process_agent_data a).road_state = "large pits" ↔
      (¬(14000 < a.accelerometer.z ∧ a.accelerometer.z ≤ 18000) ∧
        ¬((12000 < a.accelerometer.z ∧ a.accelerometer.z < 14000) ∨
          (18000 < a.accelerometer.z ∧ a.accelerometer.z < 20000)))) ∧
    (process_agent_data (sampleAgent 0 14000)).road_state = "large pits" ∧
    (process_agent_data (sampleAgent 0 12000)).road_state = "large pits" ∧
    (process_agent_data (sampleAgent 0 20000)).road_state = "large pits" ∧
    (process_agent_data (sampleAgent 0 18000)).road_state = "normal" := by
  refine ⟨?_, ?_, ?_, by decide, by decide, by decide, by decide⟩ <;>
    simp only [process_agent_data, pit_intervals_normal, pit_intervals_less,
      pit_intervals_greater] <;>
    split_ifs with h1 h2 <;>
    simp_all <;>
    (intros; linarith)

/-- C10: classification depends only on the accelerometer z value, and
the returned record carries the input agent data unchanged. -/
theorem C10_frame_z_only (a b : AgentData)
    (h : a.accelerometer.z = b.accelerometer.z) :
    (process_agent_data a).road_state = (process_agent_data b).road_state ∧
    (process_agent_data a).agent_data = a := by
  constructor
  · simp only [process_agent_data, h]
  · rfl

/-- Witness for C10 at two concrete records sharing z = 15000. -/
theorem C10_frame_z_only_witness :
    (process_agent_data (sampleAgent 1 15000)).road_state =
      (process_agent_data (sampleAgent 2 15000)).road_state ∧
    (process_agent_data (sampleAgent 1 15000)).agent_data = sampleAgent 1 15000 :=
  C10_frame_z_only (sampleAgent 1 15000) (sampleAgent 2 15000) rfl

/-! ## Buffered forwarder (src/hub/app/adapters/store_api_adapter.py)

`requests.post` and its outcome are abstracted as a `send` function from
the batch to a success boolean: `send_data` catches its own exceptions
and returns a boolean, so its whole effect on `save_data` is that
boolean. `save_data` is modelled as a state transformer on the adapter;
its result also records the list of delivery attempts made during the
call (each attempt is the batch handed to `send_data`), so that claims
about the number and content of delivery attempts can be stated. -/

structure StoreApiAdapter where
  buffer : List ProcessedAgentData
  buffer_size : Nat
deriving DecidableEq, Repr

/-- `StoreApiAdapter.save_data`: extend the buffer with the incoming
batch; if the buffer length has reached `buffer_size`, hand the entire
buffer to `send_data` (modelled by `send`), then clear the buffer —
the source clears it whether or not the send succeeded — and return
the send's result; otherwise keep buffering and return true. -/
def save_data (send : List ProcessedAgentData → Bool) (s : StoreApiAdapter)
    (processed_agent_data_batch : List ProcessedAgentData) :
    StoreApiAdapter × Bool × List (List ProcessedAgentData) :=
  let buf := s.buffer ++ processed_agent_data_batch
  if s.buffer_size ≤ buf.length then
    let success := send buf
    ({ s with buffer := [] }, success, [buf])
  else
    ({ s with buffer := buf }, true, [])

/-- A run of single-record `save_data` calls (the hub enqueues records
through `save_data`); returns the final adapter state and the
concatenated list of delivery attempts across the run. -/
def runEnqueue (send : List ProcessedAgentData → Bool) (s : StoreApiAdapter) :
    List ProcessedAgentData → StoreApiAdapter × List (List ProcessedAgentData)
  | [] => (s, [])
  | r :: rs =>
    let step := save_data send s [r]
    let rest := runEnqueue send step.1 rs
    (rest.1, step.2.2 ++ rest.2)

/-- A concrete processed record for evaluating the embedding. -/
def sampleProcessed (u : Int) (z : ℚ) : ProcessedAgentData :=
  process_agent_data (sampleAgent u z)

lemma runEnqueue_cons (send : List ProcessedAgentData → Bool)
    (s : StoreApiAdapter) (r : ProcessedAgentData) (rs : List ProcessedAgentData) :
    runEnqueue send s (r :: rs) =
      ((runEnqueue send (save_data send s [r]).1 rs).1,
        (save_data send s [r]).2.2 ++ (runEnqueue send (save_data send s [r]).1 rs).2) := rfl

lemma runEnqueue_fill (send : List ProcessedAgentData → Bool)
    (s : StoreApiAdapter) (records : List ProcessedAgentData)
    (hne : records ≠ [])
    (h : s.buffer.length + records.length = s.buffer_size) :
    runEnqueue send s records = ({ s with buffer := [] }, [s.buffer ++ records]) := by
  induction records generalizing s with
  | nil => exact absurd rfl hne
  | cons r rs ih =>
    cases rs with
    | nil =>
      simp only [runEnqueue, save_data]
      rw [if_pos (by simp at h ⊢; omega)]
      simp [runEnqueue]
    | cons r2 rs2 =>
      have hlt : ¬ s.buffer_size ≤ (s.buffer ++ [r]).length := by
        simp at h ⊢; omega
      have hstep : save_data send s [r] = ({ s with buffer := s.buffer ++ [r] }, true, []) := by
        simp only [save_data]
        rw [if_neg hlt]
      have hrec := ih { buffer := s.buffer ++ [r], buffer_size := s.buffer_size }
        (by simp) (by simp at h ⊢; omega)
      rw [runEnqueue_cons, hstep]
      simp [hrec]

/-- C4: an enqueue that leaves the buffer below the threshold makes no
delivery attempt and returns true; an enqueue that brings the buffer to
(or past) the threshold makes exactly one delivery attempt submitting
the entire current buffer as one batch; and a run of T single-record
enqueues from an empty buffer with threshold T makes exactly one
automatic delivery attempt, at the moment the buffer reaches T,
submitting all T records. -/
theorem C4_flush_at_threshold (send : List ProcessedAgentData → Bool)
    (s : StoreApiAdapter) (batch records : List ProcessedAgentData) (T : Nat) :
    (s.buffer.length + batch.length < s.buffer_size →
      save_data send s batch = ({ s with buffer := s.buffer ++ batch }, true, [])) ∧
    (s.buffer_size ≤ s.buffer.length + batch.length →
      save_data send s batch =
        ({ s with buffer := [] }, send (s.buffer ++ batch), [s.buffer ++ batch])) ∧
    (0 < T → records.length = T →
      runEnqueue send { buffer := [], buffer_size := T } records =
        ({ buffer := [], buffer_size := T }, [records])) := by
  refine ⟨fun h => ?_, fun h => ?_, fun hT hlen => ?_⟩
  · simp only [save_data]
    rw [if_neg (by simp; omega)]
  · simp only [save_data]
    rw [if_pos (by simp; omega)]
  · have := runEnqueue_fill send { buffer := [], buffer_size := T } records
      (by intro hnil; rw [hnil] at hlen; simp at hlen; omega)
      (by simp [hlen])
    simpa using this

/-- Witness for C4: threshold 2; one enqueue stays below threshold with
no attempt; the second enqueue of a run of two triggers exactly one
attempt carrying both records. -/
theorem C4_flush_at_threshold_witness :
    save_data (fun _ => true) { buffer := [], buffer_size := 2 } [sampleProcessed 1 15000] =
      ({ buffer := [sampleProcessed 1 15000], buffer_size := 2 }, true, []) ∧
    runEnqueue (fun _ => true) { buffer := [], buffer_size := 2 }
        [sampleProcessed 1 15000, sampleProcessed 2 19000] =
      ({ buffer := [], buffer_size := 2 },
        [[sampleProcessed 1 15000, sampleProcessed 2 19000]]) := by
  constructor
  · exact (C4_flush_at_threshold (fun _ => true) { buffer := [], buffer_size := 2 }
      [sampleProcessed 1 15000] [] 2).1 (by decide)
  · exact (C4_flush_at_threshold (fun _ => true) { buffer := [], buffer_size := 2 }
      [] [sampleProcessed 1 15000, sampleProcessed 2 19000] 2).2.2 (by decide) (by decide)

/-- C1 (failing-input evaluation): with threshold 1 and a failing send,
`save_data` on one record makes the delivery attempt with that record,
returns false as the claim states, but leaves the buffer empty — the
undelivered record is discarded instead of retained. -/
theorem C1_failed_flush_discards_buffer :
    save_data (fun _ => false) { buffer := [], buffer_size := 1 } [sampleProcessed 1 15000] =
      ({ buffer := [], buffer_size := 1 }, false, [[sampleProcessed 1 15000]]) ∧
    ([] : List ProcessedAgentData) ≠ [sampleProcessed 1 15000] := by
  constructor
  · rfl
  · decide

/-! ## Ingestion (src/store/main.py, create_processed_agent_data)

The endpoint loops over the batch; for each record it executes an
insert, commits, and then awaits the fan-out notification; on any
exception it rolls back (the insert of the current record is thereby
not committed; earlier records were already committed individually)
and re-raises, aborting the loop. The record store and the notifier
are external: whether the insert raises is modelled by `persistOk`,
whether the fan-out raises by `notifyOk`. The result is the list of
records committed by the call, the list of records for which fan-out
was invoked, and the raised error, if any. -/

def create_processed_agent_data (persistOk notifyOk : ProcessedAgentData → Bool) :
    List ProcessedAgentData →
      List ProcessedAgentData × List ProcessedAgentData × Option String
  | [] => ([], [], none)
  | item :: rest =>
    if persistOk item then
      -- insert executed and committed; fan-out invoked next
      if notifyOk item then
        let r := create_processed_agent_data persistOk notifyOk rest
        (item :: r.1, item :: r.2.1, r.2.2)
      else
        -- fan-out raised: rollback is a no-op (item already committed),
        -- the error propagates and the loop aborts
        ([item], [item], some "NotifyError")
    else
      -- insert raised: rollback, item not committed, error propagates
      ([], [], some "StorageError")

/-- C2: if persisting record k (1-indexed) of a batch raises a storage
error while records 1..k-1 persist (and fan out) without error, the
ingest call aborts there and reports the error; exactly records 1..k-1
are committed, and record k is not committed. -/
theorem C2_partial_batch_commit (persistOk notifyOk : ProcessedAgentData → Bool)
    (pre : List ProcessedAgentData) (r : ProcessedAgentData)
    (post : List ProcessedAgentData)
    (hpre : ∀ x ∈ pre, persistOk x = true ∧ notifyOk x = true)
    (hr : persistOk r = false) :
    create_processed_agent_data persistOk notifyOk (pre ++ r :: post) =
      (pre, pre, some "StorageError") := by
  induction pre with
  | nil =>
    simp only [List.nil_append, create_processed_agent_data]
    rw [if_neg (by simp [hr])]
  | cons p ps ih =>
    have hp := hpre p (by simp)
    simp only [List.cons_append, create_processed_agent_data]
    rw [if_pos hp.1, if_pos hp.2]
    simp [ih (fun x hx => hpre x (by simp [hx]))]

/-- Witness for C2: a two-record batch whose second record's insert
raises; the first record stays committed, the second is not committed,
and the storage error is reported. -/
theorem C2_partial_batch_commit_witness :
    create_processed_agent_data
        (fun p => p.road_state == "normal") (fun _ => true)
        [sampleProcessed 1 15000, sampleProcessed 1 21000] =
      ([sampleProcessed 1 15000], [sampleProcessed 1 15000], some "StorageError") :=
  C2_partial_batch_commit (fun p => p.road_state == "normal") (fun _ => true)
    [sampleProcessed 1 15000] (sampleProcessed 1 21000) []
    (by decide) (by decide)

/-- C6: fan-out is invoked for a record only after that record's insert
succeeded and was committed: every record in the notified list has a
successful persist and appears in the committed list. -/
theorem C6_notify_only_after_persist (persistOk notifyOk : ProcessedAgentData → Bool)
    (batch : List ProcessedAgentData) (r : ProcessedAgentData)
    (hr : r ∈ (create_processed_agent_data persistOk notifyOk batch).2.1) :
    persistOk r = true ∧
      r ∈ (create_processed_agent_data persistOk notifyOk batch).1 := by
  induction batch with
  | nil => simp [create_processed_agent_data] at hr
  | cons item rest ih =>
    by_cases hp : persistOk item = true
    · by_cases hn : notifyOk item = true
      · simp only [create_processed_agent_data, if_pos hp, if_pos hn] at hr ⊢
        rcases List.mem_cons.mp hr with hEq | hMem
        · subst hEq; exact ⟨hp, List.mem_cons_self _ _⟩
        · exact ⟨(ih hMem).1, List.mem_cons_of_mem _ (ih hMem).2⟩
      · simp only [create_processed_agent_data, if_pos hp, if_neg hn] at hr ⊢
        rcases List.mem_singleton.mp hr with hEq
        subst hEq; exact ⟨hp, List.mem_singleton_self _⟩
    · simp only [create_processed_agent_data, if_neg hp] at hr
      simp at hr

/-- Witness for C6 on a concrete singleton batch whose record persists
and is notified. -/
theorem C6_notify_only_after_persist_witness :
    (fun p => p.road_state == "normal") (sampleProcessed 1 15000) = true ∧
      sampleProcessed 1 15000 ∈
        (create_processed_agent_data (fun p => p.road_state == "normal")
          (fun _ => true) [sampleProcessed 1 15000]).1 :=
  C6_notify_only_after_persist (fun p => p.road_state == "normal") (fun _ => true)
    [sampleProcessed 1 15000] (sampleProcessed 1 15000) (by decide)

/-! ## Subscription registry (src/store/main.py)

`subscriptions: Dict[int, Set[WebSocket]]` is modelled as a total
function from producer id to an optional channel set (`none` = key not
present). A Python set of websockets is modelled as a duplicate-free
list of channel ids: iteration visits each element once in the list
order (which order a Python set iterates in is unspecified, and no claim
depends on it); `set.add` is `List.insert` (no effect when the element
is present), `set.remove` raises `KeyError` when the element is absent,
as does indexing a dict at a missing key. -/

abbrev Subscriptions := Nat → Option (List Nat)

/-- The subscribe path of `websocket_endpoint`: if `user_id` is not a
key of `subscriptions`, bind it to an empty set; then add the websocket
to the set. -/
def websocket_subscribe (d : Subscriptions) (user_id ch : Nat) : Subscriptions :=
  fun p => if p = user_id then some (List.insert ch ((d user_id).getD [])) else d p

/-- The disconnect path of `websocket_endpoint`:
`subscriptions[user_id].remove(websocket)`. A `KeyError` is raised when
`user_id` is not a key of the dict, and also when the websocket is not
in the set. -/
def websocket_unsubscribe (d : Subscriptions) (user_id ch : Nat) :
    Except String Subscriptions :=
  match d user_id with
  | none => Except.error "KeyError"
  | some cs =>
    if ch ∈ cs then
      Except.ok (fun p => if p = user_id then some (cs.erase ch) else d p)
    else
      Except.error "KeyError"

/-- The per-channel loop of `send_data_to_subscribers`: each send either
succeeds or raises (`fails c = true` means sending to channel `c`
raises); a raise aborts the loop and propagates. Returns the channels
that received the record and whether the loop completed without
raising. -/
def sendLoop (fails : Nat → Bool) : List Nat → List Nat × Bool
  | [] => ([], true)
  | c :: cs =>
    if fails c then ([], false)
    else
      let r := sendLoop fails cs
      (c :: r.1, r.2)

/-- `send_data_to_subscribers`: if `user_id` is a key of the dict,
iterate over its channel set sending the record to each channel. The
function performs no mutation of the registry. -/
def send_data_to_subscribers (fails : Nat → Bool) (d : Subscriptions)
    (user_id : Nat) : List Nat × Bool :=
  match d user_id with
  | none => ([], true)
  | some cs => sendLoop fails cs

lemma sendLoop_all_ok (l : List Nat) : sendLoop (fun _ => false) l = (l, true) := by
  induction l with
  | nil => rfl
  | cons c cs ih => simp [sendLoop, ih]

lemma sendLoop_takeWhile (fails : Nat → Bool) (l : List Nat) :
    sendLoop fails l =
      (l.takeWhile (fun c => !fails c), l.all (fun c => !fails c)) := by
  induction l with
  | nil => rfl
  | cons c cs ih =>
    cases hfc : fails c <;> simp [sendLoop, hfc, List.takeWhile_cons, ih]

/-- C5: after subscribing channel `ch` under `pid`, a notify for `pid`
(with every send succeeding) delivers to `ch` exactly once and reaches
every channel registered under `pid`; a notify for a different producer
`q` (under which `ch` is not registered) delivers nothing to `ch`; and
subscribing the same channel a second time leaves the registry
unchanged. `hwf` is the Python set invariant: a set holds no
duplicates. -/
theorem C5_subscribe_notify (d d2 : Subscriptions) (pid q ch c : Nat)
    (cs : List Nat)
    (hwf : ∀ u l, d u = some l → l.Nodup)
    (hd2 : d2 = websocket_subscribe d pid ch)
    (hq : q ≠ pid) (hch : ch ∉ (d q).getD [])
    (hcs : d2 pid = some cs) (hc : c ∈ cs) :
    (send_data_to_subscribers (fun _ => false) d2 pid).1.count ch = 1 ∧
    c ∈ (send_data_to_subscribers (fun _ => false) d2 pid).1 ∧
    (send_data_to_subscribers (fun _ => false) d2 q).1.count ch = 0 ∧
    websocket_subscribe d2 pid ch = d2 := by
  have hnodup : ((d pid).getD []).Nodup := by
    cases hdp : d pid with
    | none => simp
    | some l => simpa using hwf pid l hdp
  have hins : d2 pid = some (List.insert ch ((d pid).getD [])) := by
    subst hd2; simp [websocket_subscribe]
  have hcseq : cs = List.insert ch ((d pid).getD []) := by
    rw [hins] at hcs; exact (Option.some.injEq _ _ ▸ hcs.symm)
  have hdel : send_data_to_subscribers (fun _ => false) d2 pid =
      (List.insert ch ((d pid).getD []), true) := by
    simp only [send_data_to_subscribers, hins, sendLoop_all_ok]
  have hd2q : d2 q = d q := by
    subst hd2; simp [websocket_subscribe, hq]
  refine ⟨?_, ?_, ?_, ?_⟩
  · rw [hdel]
    exact List.count_eq_one_of_mem (hnodup.insert) (List.mem_insert_self ch _)
  · rw [hdel]
    exact hcseq ▸ hc
  · have : send_data_to_subscribers (fun _ => false) d2 q = ((d q).getD [], true) := by
      cases hdq : d q with
      | none => simp only [send_data_to_subscribers, hd2q, hdq, Option.getD]
      | some l => simp only [send_data_to_subscribers, hd2q, hdq, sendLoop_all_ok, Option.getD]
    rw [this]
    exact List.count_eq_zero.mpr hch
  · funext p
    by_cases hp : p = pid
    · subst hp
      have hsub : websocket_subscribe d2 p ch p =
          some (List.insert ch ((d2 p).getD [])) := by
        simp [websocket_subscribe]
      rw [hsub, hins, Option.getD_some]
      rw [List.insert_of_mem (List.mem_insert_self ch _)]
    · subst hd2
      simp [websocket_subscribe, hp]

/-- Witness for C5: empty registry, subscribe channel 1 under producer
5; notify for 5 delivers to 1 exactly once and reaches every channel of
5's set (here [1]); notify for 6 delivers nothing to 1; re-subscribing 1
changes nothing. -/
theorem C5_subscribe_notify_witness :
    (send_data_to_subscribers (fun _ => false)
      (websocket_subscribe (fun _ => none) 5 1) 5).1.count 1 = 1 ∧
    1 ∈ (send_data_to_subscribers (fun _ => false)
      (websocket_subscribe (fun _ => none) 5 1) 5).1 ∧
    (send_data_to_subscribers (fun _ => false)
      (websocket_subscribe (fun _ => none) 5 1) 6).1.count 1 = 0 ∧
    websocket_subscribe (websocket_subscribe (fun _ => none) 5 1) 5 1 =
      websocket_subscribe (fun _ => none) 5 1 :=
  C5_subscribe_notify (fun _ => none) (websocket_subscribe (fun _ => none) 5 1)
    5 6 1 1 [1]
    (fun _ _ h => Option.noConfusion h) rfl (by decide) (by simp)
    (by simp [websocket_subscribe]) (by decide)

/-- C8 counterexample: unsubscribing a channel that is not registered is
not a no-op — it raises `KeyError` — both when the producer id is
unknown to the dict and when the channel is missing from the producer's
set. -/
theorem C8_unsubscribe_raises_cex :
    websocket_unsubscribe (fun _ => none) 5 1 = Except.error "KeyError" ∧
    websocket_unsubscribe (fun p => if p = 5 then some [2] else none) 5 1 =
      Except.error "KeyError" :=
  ⟨rfl, rfl⟩

/-- C8 amended: unsubscribing a registered channel removes it from the
producer's set; unsubscribing a channel that is absent from the
producer's set, or under a producer id that is not a key of the dict,
raises `KeyError` — the operation is not idempotent. -/
theorem C8_unsubscribe_amended (d : Subscriptions) (pid ch : Nat)
    (cs : List Nat) :
    (d pid = some cs → ch ∈ cs →
      websocket_unsubscribe d pid ch =
        Except.ok (fun p => if p = pid then some (cs.erase ch) else d p)) ∧
    (d pid = some cs → ch ∉ cs →
      websocket_unsubscribe d pid ch = Except.error "KeyError") ∧
    (d pid = none → websocket_unsubscribe d pid ch = Except.error "KeyError") := by
  refine ⟨fun h1 h2 => ?_, fun h1 h2 => ?_, fun h => ?_⟩
  · simp only [websocket_unsubscribe, h1]
    rw [if_pos h2]
  · simp only [websocket_unsubscribe, h1]
    rw [if_neg h2]
  · simp only [websocket_unsubscribe, h]

/-- Witness for C8 amended: removing registered channel 1 from producer
5's set [1, 2] succeeds, a second removal of 1 raises `KeyError`. -/
theorem C8_unsubscribe_amended_witness :
    websocket_unsubscribe (fun p => if p = 5 then some [1, 2] else none) 5 1 =
      Except.ok (fun p => if p = 5 then some (([1, 2] : List Nat).erase 1)
        else (fun p2 => if p2 = 5 then some [1, 2] else none) p) ∧
    websocket_unsubscribe (fun p => if p = 5 then some [2] else none) 5 1 =
      Except.error "KeyError" :=
  ⟨(C8_unsubscribe_amended (fun p => if p = 5 then some [1, 2] else none) 5 1
      [1, 2]).1 rfl (by decide),
    (C8_unsubscribe_amended (fun p => if p = 5 then some [2] else none) 5 1
      [2]).2.1 rfl (by decide)⟩

/-- C9 counterexample: channels 1 and 2 are registered under producer 5
and sending to channel 1 raises; the notify loop aborts at channel 1, so
registered channel 2 receives nothing and the exception propagates out
of the notifier (second component false); the registry is not modified
by `send_data_to_subscribers`, so the failing channel is not removed. -/
theorem C9_failed_send_cex :
    (2 ∈ ([1, 2] : List Nat)) ∧
    ((fun p => if p = 5 then some [1, 2] else none) : Subscriptions) 5 = some [1, 2] ∧
    send_data_to_subscribers (fun c => c == 1)
      (fun p => if p = 5 then some [1, 2] else none) 5 = ([], false) :=
  ⟨by decide, rfl, rfl⟩

/-- C9 amended: a failed send is not isolated: the record is delivered
exactly to the channels preceding the first failing channel in the
iteration order, the exception propagates to the notifier's caller
whenever any send fails, and the registry is left untouched (no channel
is removed by the notifier). -/
theorem C9_failed_send_amended (fails : Nat → Bool) (d : Subscriptions)
    (pid : Nat) (cs : List Nat) (h : d pid = some cs) :
    send_data_to_subscribers fails d pid =
      (cs.takeWhile (fun c => !fails c), cs.all (fun c => !fails c)) := by
  simp only [send_data_to_subscribers, h, sendLoop_takeWhile]

/-- Witness for C9 amended at the two-channel registry where sending to
channel 1 raises. -/
theorem C9_failed_send_amended_witness :
    send_data_to_subscribers (fun c => c == 1)
        (fun p => if p = 5 then some [1, 2] else none) 5 =
      (([1, 2] : List Nat).takeWhile (fun c => !(c == 1)),
        ([1, 2] : List Nat).all (fun c => !(c == 1))) :=
  C9_failed_send_amended (fun c => c == 1)
    (fun p => if p = 5 then some [1, 2] else none) 5 [1, 2] rfl

/-! ## CRUD endpoints (src/store/main.py)

The record store table is modelled as a list of flattened rows. A
SQLAlchemy `session.execute` on a select returns rows (`first()` gives
an optional row); on an update or delete statement it returns a
`CursorResult` object. `CursorResult` defines no truth conversion, so
Python's `if not result:` on it is always false — this is modelled by
`cursorResultTruthy`, and the endpoints' dead not-found branches are
kept in the embedding guarded by it. In the absent-id case the final
`first()` of `update` (and the initial `first()` of `delete`) is
`none`, which the endpoint returns as its body (`Except.ok none`)
instead of a not-found error. -/

structure FlatRecord where
  id : Nat
  road_state : String
  user_id : Int
  x : ℚ
  y : ℚ
  z : ℚ
  latitude : ℚ
  longitude : ℚ
  timestamp : Int
deriving DecidableEq, Repr

abbrev Db := List FlatRecord

/-- `select(...).where(id == i)` followed by `.first()`. -/
def db_first (db : Db) (i : Nat) : Option FlatRecord :=
  db.find? (fun r => r.id == i)

/-- A `CursorResult` (the value `session.execute` returns for an update
or delete statement) defines no `__bool__`/`__len__`, so Python
truth-tests it as `True` — even when the statement matched zero rows. -/
def cursorResultTruthy : Bool := true

/-- The `.values(...)` clause of the update statement applied to a
matched row: every column except the primary key is overwritten from the
request body. -/
def apply_update_values (data : ProcessedAgentData) (r : FlatRecord) : FlatRecord :=
  { r with
    road_state := data.road_state
    user_id := data.agent_data.user_id
    x := data.agent_data.accelerometer.x
    y := data.agent_data.accelerometer.y
    z := data.agent_data.accelerometer.z
    latitude := data.agent_data.gps.latitude
    longitude := data.agent_data.gps.longitude
    timestamp := data.agent_data.timestamp }

/-- `read_processed_agent_data`: select by id, `first()`, and raise 404
when no row came back. -/
def read_processed_agent_data (db : Db) (i : Nat) : Except Nat FlatRecord :=
  match db_first db i with
  | none => Except.error 404
  | some r => Except.ok r

/-- `update_processed_agent_data`: execute the update (matching zero or
one row), truth-test the `CursorResult` for the not-found branch (which
therefore never fires), commit, then select the row again and return
`first()` — `none` when the id was absent. Returns the committed store
and the response. -/
def update_processed_agent_data (db : Db) (i : Nat) (data : ProcessedAgentData) :
    Db × Except Nat (Option FlatRecord) :=
  let db2 := db.map (fun r => if r.id == i then apply_update_values data r else r)
  if cursorResultTruthy = false then
    (db, Except.error 404)
  else
    (db2, Except.ok (db_first db2 i))

/-- `delete_processed_agent_data`: select the row first, execute the
delete, truth-test the `CursorResult` for the not-found branch (which
therefore never fires), commit, and return the pre-delete row — `none`
when the id was absent. Returns the committed store and the response. -/
def delete_processed_agent_data (db : Db) (i : Nat) :
    Db × Except Nat (Option FlatRecord) :=
  let obj_to_delete := db_first db i
  let db2 := db.filter (fun r => !(r.id == i))
  if cursorResultTruthy = false then
    (db, Except.error 404)
  else
    (db2, Except.ok obj_to_delete)

/-- A concrete flattened row for evaluating the embedding. -/
def sampleFlat (i : Nat) (z : ℚ) : FlatRecord :=
  { id := i, road_state := "normal", user_id := 1, x := 0, y := 0, z := z,
    latitude := 50, longitude := 30, timestamp := 0 }

/-- C7 (failing-input evaluation): on an absent identifier, read raises
404 as claimed, but update and delete return `Except.ok none` — the
update commits a zero-row update and returns a null body, the delete
returns a null body — and neither ever reports not-found; on a present
identifier, update returns the post-update row and delete the
pre-delete row, as claimed. -/
theorem C7_update_delete_never_404 :
    read_processed_agent_data [] 1 = Except.error 404 ∧
    update_processed_agent_data [] 1 (sampleProcessed 1 19000) =
      ([], Except.ok none) ∧
    delete_processed_agent_data [] 1 = ([], Except.ok none) ∧
    update_processed_agent_data [sampleFlat 1 15000] 1 (sampleProcessed 1 19000) =
      ([apply_update_values (sampleProcessed 1 19000) (sampleFlat 1 15000)],
        Except.ok (some (apply_update_values (sampleProcessed 1 19000) (sampleFlat 1 15000)))) ∧
    delete_processed_agent_data [sampleFlat 1 15000] 1 =
      ([], Except.ok (some (sampleFlat 1 15000))) := by
  exact ⟨rfl, rfl, rfl, rfl, rfl⟩
